import Mathlib

/-!
Verification of the giphy-search client core: the fetch orchestration in
`src/context/GiphySearchContext.tsx`, the utility handlers
`src/utils/handleSearch.ts` and `src/utils/handleTrendingGifs.ts`, the
shared delay promise `src/utils/minDelay.ts`, the context accessor
`src/hooks/useGiphySearchContext.ts`, and the typing-animation hook
`src/hooks/useAnimatedPlaceHolder.ts`.

The embedding is shallow: React state setters become explicit state
transitions; each orchestrator call is a pure function from the state
before the call and the outcome of the axios request to the list of
successive states produced by its setter calls. Promises are modelled by
their settle time and settled outcome.
-/

namespace GiphyModel

/-- Image reference of a GIF, from types.ts: fixed_width holds url, height,
width, all strings as returned by the provider. -/
structure FixedWidthImage where
  url : String
  height : String
  width : String
deriving Repr, DecidableEq

/-- Wrapper for the images field of a GifObject (types.ts). -/
structure GifImages where
  fixed_width : FixedWidthImage
deriving Repr, DecidableEq

/-- One fetched GIF result, from types.ts (GifObject). -/
structure GifObject where
  id : String
  images : GifImages
  url : String
  bitly_url : String
deriving Repr, DecidableEq

/-- Model of the axios response body (response.data in the source).
`falsy` covers a missing or empty body (undefined, null, empty string),
for which the JavaScript test `if (response.data)` takes the else branch.
`truthy dataField` is a non-falsy body; `dataField` is the value the
JavaScript expression `response.data.data` evaluates to: `some list` when
the body carries a GifObject list under the key data, `none` when that key
is absent (the JavaScript value undefined). -/
inductive Body where
  | falsy : Body
  | truthy (dataField : Option (List GifObject)) : Body
deriving Repr, DecidableEq

/-- Settled outcome of the axios request: success with a parsed body, or
rejection with an error message (error.message in the source). -/
inductive AdapterResult where
  | success (body : Body) : AdapterResult
  | failure (message : String) : AdapterResult
deriving Repr, DecidableEq

/-- The orchestrator state held in the provider: loading, error and gifs.
gifs is an Option because `setGifs(response.data.data)` can store the
JavaScript value undefined (modelled none) when the body has no data key. -/
structure FetchState where
  loading : Bool
  error : String
  gifs : Option (List GifObject)
deriving Repr, DecidableEq

/-- Provider-mount state: loading false, empty error, empty gif list. -/
def initState : FetchState := ⟨false, "", some []⟩

/-- Final state after a run: the last state of the trace, or the prior
state when the run performed no setter call. -/
def settle (s : FetchState) (trace : List FetchState) : FetchState :=
  trace.getLastD s

/-- The handleSearch action of GiphySearchContext.tsx (exposed as
searchGifs). Mirrors the source exactly: it does NOT set loading to true,
does NOT clear error, and has NO blank-query guard; on a truthy body it
stores response.data.data, on a falsy body it throws
"No data when search for a GIF" which the catch turns into the search
message, on rejection it appends error.message; finally sets loading
false. Returns the list of successive states. -/
def providerHandleSearch (_query : String) (s : FetchState)
    (r : AdapterResult) : List FetchState :=
  match r with
  | .success (.truthy d) =>
      let s1 : FetchState := { s with gifs := d }
      [s1, { s1 with loading := false }]
  | .success .falsy =>
      let s1 : FetchState :=
        { s with error := "Failed to search for a GIF: No data when search for a GIF" }
      [s1, { s1 with loading := false }]
  | .failure msg =>
      let s1 : FetchState :=
        { s with error := "Failed to search for a GIF: " ++ msg }
      [s1, { s1 with loading := false }]

/-- The fetchTrendingGifs action of GiphySearchContext.tsx. Sets loading
true, then on a truthy body stores response.data.data, on a falsy body
throws "No data when fetch trending GIFs" (caught and wrapped in the
trending message), on rejection appends error.message; finally sets
loading false. -/
def providerFetchTrendingGifs (s : FetchState) (r : AdapterResult) :
    List FetchState :=
  let s1 : FetchState := { s with loading := true }
  match r with
  | .success (.truthy d) =>
      let s2 : FetchState := { s1 with gifs := d }
      [s1, s2, { s2 with loading := false }]
  | .success .falsy =>
      let s2 : FetchState :=
        { s1 with error := "Failed to fetch trending GIFs: No data when fetch trending GIFs" }
      [s1, s2, { s2 with loading := false }]
  | .failure msg =>
      let s2 : FetchState :=
        { s1 with error := "Failed to fetch trending GIFs: " ++ msg }
      [s1, s2, { s2 with loading := false }]

/-- The JavaScript String.prototype.trim applied by handleSearch.ts to
the query: removes leading and trailing whitespace characters. Embedded
structurally over the character list so that it evaluates. -/
def jsTrim (s : String) : String :=
  ⟨((s.data.dropWhile Char.isWhitespace).reverse.dropWhile
      Char.isWhitespace).reverse⟩

/-- The standalone handleSearch of src/utils/handleSearch.ts. A blank
query (empty after trim) returns immediately with no setter call. A
non-blank query sets loading true, clears error, joins the request with
the shared minDelay promise, then: truthy body stores the data field,
falsy body sets "Failed to fetch searched GIFS", rejection sets
"Failed to fetch searched GIFs"; finally sets loading false. -/
def utilsHandleSearch (query : String) (s : FetchState)
    (r : AdapterResult) : List FetchState :=
  if jsTrim query = "" then []
  else
    let s1 : FetchState := { s with loading := true }
    let s2 : FetchState := { s1 with error := "" }
    match r with
    | .success (.truthy d) =>
        let s3 : FetchState := { s2 with gifs := d }
        [s1, s2, s3, { s3 with loading := false }]
    | .success .falsy =>
        let s3 : FetchState := { s2 with error := "Failed to fetch searched GIFS" }
        [s1, s2, s3, { s3 with loading := false }]
    | .failure _ =>
        let s3 : FetchState := { s2 with error := "Failed to fetch searched GIFs" }
        [s1, s2, s3, { s3 with loading := false }]

/-- The standalone handleTrendingGifs of src/utils/handleTrendingGifs.ts.
Sets loading true, clears error, joins the request with the shared
minDelay promise, then: truthy body stores the data field, falsy body
sets "Failed to fetch trending GIFS", rejection sets
"Failed to fetch trending GIFs"; finally sets loading false. -/
def utilsHandleTrendingGifs (s : FetchState) (r : AdapterResult) :
    List FetchState :=
  let s1 : FetchState := { s with loading := true }
  let s2 : FetchState := { s1 with error := "" }
  match r with
  | .success (.truthy d) =>
      let s3 : FetchState := { s2 with gifs := d }
      [s1, s2, s3, { s3 with loading := false }]
  | .success .falsy =>
      let s3 : FetchState := { s2 with error := "Failed to fetch trending GIFS" }
      [s1, s2, s3, { s3 with loading := false }]
  | .failure _ =>
      let s3 : FetchState := { s2 with error := "Failed to fetch trending GIFs" }
      [s1, s2, s3, { s3 with loading := false }]

/-- The clearError action of GiphySearchContext.tsx: setError of the empty
string, nothing else. -/
def clearError (s : FetchState) : FetchState :=
  { s with error := "" }

/-- States reachable from the mount state by sequences of settled
orchestrator actions (either implementation of search and trending, and
clearError). Each fetch constructor quantifies over the adapter outcome
of that call. -/
inductive Reachable : FetchState → Prop where
  | init : Reachable initState
  | providerSearch (q : String) (r : AdapterResult) {s : FetchState} :
      Reachable s → Reachable (settle s (providerHandleSearch q s r))
  | providerTrending (r : AdapterResult) {s : FetchState} :
      Reachable s → Reachable (settle s (providerFetchTrendingGifs s r))
  | utilsSearch (q : String) (r : AdapterResult) {s : FetchState} :
      Reachable s → Reachable (settle s (utilsHandleSearch q s r))
  | utilsTrending (r : AdapterResult) {s : FetchState} :
      Reachable s → Reachable (settle s (utilsHandleTrendingGifs s r))
  | clear {s : FetchState} : Reachable s → Reachable (clearError s)

/-- A settled promise, modelled by the absolute time at which it settles
and its settled outcome (resolution value or rejection reason). -/
structure MPromise (α : Type) where
  settleTime : Nat
  result : Except String α

/-- Promise.all of two promises: resolves with the pair once both have
resolved (at the later settle time); rejects as soon as either rejects,
with that rejection reason. -/
def promiseAll2 {α β : Type} (p : MPromise α) (q : MPromise β) :
    MPromise (α × β) :=
  match p.result, q.result with
  | .ok a, .ok b => ⟨max p.settleTime q.settleTime, .ok (a, b)⟩
  | .error e, .ok _ => ⟨p.settleTime, .error e⟩
  | .ok _, .error e => ⟨q.settleTime, .error e⟩
  | .error e, .error f =>
      if q.settleTime < p.settleTime then ⟨q.settleTime, .error f⟩
      else ⟨p.settleTime, .error e⟩

/-- A promise built from setTimeout: new Promise(resolve => setTimeout(()
=> resolve(true), duration)) created at time `now` resolves with true at
`now + duration` and never rejects. -/
def timerPromise (now duration : Nat) : MPromise Bool :=
  ⟨now + duration, .ok true⟩

/-- The configured minimum delay: const delayTime = 1000 (both in
GiphySearchContext.tsx and in minDelay.ts). -/
def delayTime : Nat := 1000

/-- The withMinDelay helper of GiphySearchContext.tsx, called at time
`now`: it creates a fresh timer promise of the given duration, awaits
Promise.all of the wrapped promise and the timer, and returns the first
component of the pair. -/
def withMinDelay {α : Type} (now : Nat) (p : MPromise α) (d : Nat) :
    MPromise α :=
  let gate := timerPromise now d
  let j := promiseAll2 p gate
  ⟨j.settleTime, j.result.map Prod.fst⟩

/-- The module-level minDelay promise of src/utils/minDelay.ts: created
ONCE when the module loads (at time `moduleLoad`), resolving at
moduleLoad + delayTime. Every call of the utils handlers shares this one
promise. -/
def minDelay (moduleLoad : Nat) : MPromise Bool :=
  timerPromise moduleLoad delayTime

/-- The join performed inside utils handleSearch / handleTrendingGifs:
Promise.all of the axios request and the shared module-level minDelay
promise, returning the response (first component). -/
def utilsJoin {α : Type} (moduleLoad : Nat) (p : MPromise α) :
    MPromise α :=
  let j := promiseAll2 p (minDelay moduleLoad)
  ⟨j.settleTime, j.result.map Prod.fst⟩

/-- Loading interval of a providerFetchTrendingGifs call issued at `now`:
setLoading(true) runs synchronously at the call, setLoading(false) runs in
the finally block when the withMinDelay join settles. -/
def providerTrendingLoadingInterval (now : Nat) (adapter : MPromise Body) :
    Nat × Nat :=
  (now, (withMinDelay now adapter delayTime).settleTime)

/-- Loading interval of a utils handleTrendingGifs call issued at `now`
with the shared minDelay promise created at `moduleLoad`: setLoading(true)
at the call, setLoading(false) when the Promise.all join settles. -/
def utilsTrendingLoadingInterval (moduleLoad now : Nat)
    (adapter : MPromise Body) : Nat × Nat :=
  (now, (utilsJoin moduleLoad adapter).settleTime)

/-- State of the useAnimatedPlaceHolder hook: the visible placeholder
text, the isDeleted phase flag, and the phrase index. -/
structure PlaceholderState where
  placeholder : String
  isDeleted : Bool
  index : Nat
deriving Repr, DecidableEq

/-- Hook mount state: useState gives empty text, isDeleted false, index 0. -/
def initPlaceholder : PlaceholderState := ⟨"", false, 0⟩

/-- One pass of the effect body of useAnimatedPlaceHolder.ts: with
current = phrases[index], either (typing done, not deleting) flip
isDeleted after the pause; or (deleting and text empty) advance index by
one modulo the phrase count and leave the deleting phase; or extend /
shorten the text by one character of current via substring. -/
def useAnimatedPlaceHolderStep (phrases : List String)
    (s : PlaceholderState) : PlaceholderState :=
  let current := phrases.getD s.index ""
  if !s.isDeleted && s.placeholder == current then
    { s with isDeleted := true }
  else if s.isDeleted && s.placeholder == "" then
    { s with index := (s.index + 1) % phrases.length, isDeleted := false }
  else if s.isDeleted then
    { s with placeholder := current.take (s.placeholder.length - 1) }
  else
    { s with placeholder := current.take (s.placeholder.length + 1) }

/-- Whether the effect schedules a setTimeout in this state: every branch
does except the index-advance branch (deleting with empty text), which
updates state synchronously, so the value it shows has no dwell time of
its own. -/
def schedulesTimeout (s : PlaceholderState) : Bool :=
  !(s.isDeleted && s.placeholder == "")

/-- The first n states of the animation run from the mount state. -/
def traceStates (phrases : List String) (n : Nat) : List PlaceholderState :=
  (List.range n).map
    (fun k => (useAnimatedPlaceHolderStep phrases)^[k] initPlaceholder)

/-- The visibleText values observed over time during the first n states:
the text of each state that dwells (schedules a timer); the synchronous
index-advance states are collapsed into their neighbours. -/
def observedTexts (phrases : List String) (n : Nat) : List String :=
  ((traceStates phrases n).filter schedulesTimeout).map
    (fun s => s.placeholder)

/-- The context value assembled by the provider: state fields plus the
three actions (types.ts, GiphyContextObject); the actions are embedded as
the state-trace functions above. -/
structure GiphyContextObject where
  loading : Bool
  error : String
  gifs : List GifObject
  searchGifs : String → FetchState → AdapterResult → List FetchState
  fetchTrendingGifs : FetchState → AdapterResult → List FetchState
  clearErrorAction : FetchState → FetchState

/-- The useGiphySearchContext hook: looks up the context value; when it is
undefined (lookup outside the provider subtree) it throws a descriptive
error, otherwise it returns the shared context object. -/
def useGiphySearchContext (context : Option GiphyContextObject) :
    Except String GiphyContextObject :=
  match context with
  | none => .error "Context must be used with a GiphySearchContext"
  | some c => .ok c

/-- A concrete GifObject used in evaluations. -/
def sampleGif : GifObject :=
  ⟨"1", ⟨⟨"u", "200", "160"⟩⟩, "gurl", "gbit"⟩

/-- A state carrying a prior error message, as left by an earlier failed
call, with loading false and an empty result list. -/
def oldErrState : FetchState := ⟨false, "old error", some []⟩

/-!  Theorems. -/

theorem settle_providerHandleSearch_loading (q : String) (s : FetchState)
    (r : AdapterResult) :
    (settle s (providerHandleSearch q s r)).loading = false := by
  cases r with
  | success b => cases b <;> rfl
  | failure m => rfl

theorem settle_providerFetchTrendingGifs_loading (s : FetchState)
    (r : AdapterResult) :
    (settle s (providerFetchTrendingGifs s r)).loading = false := by
  cases r with
  | success b => cases b <;> rfl
  | failure m => rfl

theorem settle_utilsHandleTrendingGifs_loading (s : FetchState)
    (r : AdapterResult) :
    (settle s (utilsHandleTrendingGifs s r)).loading = false := by
  cases r with
  | success b => cases b <;> rfl
  | failure m => rfl

theorem settle_utilsHandleSearch_loading (q : String) (s : FetchState)
    (r : AdapterResult) (hs : s.loading = false) :
    (settle s (utilsHandleSearch q s r)).loading = false := by
  unfold utilsHandleSearch
  by_cases h : jsTrim q = ""
  · rw [if_pos h]
    exact hs
  · rw [if_neg h]
    cases r with
    | success b => cases b <;> rfl
    | failure m => rfl

/-- Every state reachable by settled actions has loading false: each
completed fetch ends in a finally block that sets loading false, a blank
utils search changes nothing, and clearError keeps loading. -/
theorem reachable_loading_false {s : FetchState} (h : Reachable s) :
    s.loading = false := by
  induction h with
  | init => rfl
  | providerSearch q r hr ih => exact settle_providerHandleSearch_loading q _ r
  | providerTrending r hr ih => exact settle_providerFetchTrendingGifs_loading _ r
  | utilsSearch q r hr ih => exact settle_utilsHandleSearch_loading q _ r ih
  | utilsTrending r hr ih => exact settle_utilsHandleTrendingGifs_loading _ r
  | clear hr ih => exact ih

/-- C3: in every state reachable by a sequence of settled submitSearch,
loadTrending and clearError actions, a non-empty error implies loading is
false (in fact loading is false in every such settled state). -/
theorem claim_C3_error_implies_not_loading {s : FetchState}
    (h : Reachable s) (_he : s.error ≠ "") : s.loading = false :=
  reachable_loading_false h

theorem claim_C3_witness :
    (settle initState
        (providerFetchTrendingGifs initState (AdapterResult.failure "boom"))).error ≠ ""
    ∧ (settle initState
        (providerFetchTrendingGifs initState (AdapterResult.failure "boom"))).loading = false :=
  ⟨by decide,
   claim_C3_error_implies_not_loading
     (Reachable.providerTrending (AdapterResult.failure "boom") Reachable.init)
     (by decide)⟩

/-- C1: evaluation of the code at the failing input. The provider action
searchGifs (handleSearch in GiphySearchContext.tsx), called with the
non-blank query "cats" from a state with a stale error, never sets
loading to true (every state of its trace has loading false) and does not
clear the stale error on success, contradicting the claimed
loading-true-then-false transition with error cleared. -/
theorem claim_C1_provider_search_never_sets_loading :
    providerHandleSearch "cats" oldErrState
        (AdapterResult.success (Body.truthy (some [sampleGif]))) =
      [⟨false, "old error", some [sampleGif]⟩,
       ⟨false, "old error", some [sampleGif]⟩]
    ∧ ((providerHandleSearch "cats" oldErrState
        (AdapterResult.success (Body.truthy (some [sampleGif])))).all
          (fun t => !t.loading)) = true :=
  ⟨rfl, rfl⟩

/-- C4: evaluation of the code at the failing input. The provider action
searchGifs has no blank-query guard: called with the whitespace query
" " it performs the fetch and, when the adapter rejects, mutates error —
not a no-op — while the utils handleSearch returns without any setter
call on the same query. -/
theorem claim_C4_provider_blank_query_not_noop :
    providerHandleSearch " " initState (AdapterResult.failure "network down") =
      [⟨false, "Failed to search for a GIF: network down", some []⟩,
       ⟨false, "Failed to search for a GIF: network down", some []⟩]
    ∧ settle initState
        (providerHandleSearch " " initState (AdapterResult.failure "network down")) ≠ initState
    ∧ utilsHandleSearch " " initState (AdapterResult.failure "network down") = [] := by
  refine ⟨rfl, by decide, by decide⟩

/-- C5: when the trending adapter rejects, both implementations end with
loading false, the trending-specific error message, and the items exactly
as before the call; the full traces show that only error and loading are
ever mutated on the failure path. -/
theorem claim_C5_trending_reject_preserves_items (s : FetchState)
    (msg : String) :
    providerFetchTrendingGifs s (AdapterResult.failure msg) =
      [⟨true, s.error, s.gifs⟩,
       ⟨true, "Failed to fetch trending GIFs: " ++ msg, s.gifs⟩,
       ⟨false, "Failed to fetch trending GIFs: " ++ msg, s.gifs⟩]
    ∧ utilsHandleTrendingGifs s (AdapterResult.failure msg) =
      [⟨true, s.error, s.gifs⟩, ⟨true, "", s.gifs⟩,
       ⟨true, "Failed to fetch trending GIFs", s.gifs⟩,
       ⟨false, "Failed to fetch trending GIFs", s.gifs⟩] := by
  cases s
  exact ⟨rfl, rfl⟩

/-- C6: counterexample. A truthy response payload that lacks the data
list (Body.truthy none, the JavaScript body without a data key) is NOT
treated as failed by fetchTrendingGifs: the final state has an empty
error and gifs overwritten with none (the JavaScript value undefined, a
non-list), refuting the claim at this input. -/
theorem claim_C6_counterexample :
    settle initState
        (providerFetchTrendingGifs initState
          (AdapterResult.success (Body.truthy none))) = ⟨false, "", none⟩
    ∧ ¬ ((settle initState
          (providerFetchTrendingGifs initState
            (AdapterResult.success (Body.truthy none)))).error ≠ ""
        ∧ (settle initState
            (providerFetchTrendingGifs initState
              (AdapterResult.success (Body.truthy none)))).gifs = initState.gifs) := by
  decide

/-- C6 amended: only a falsy response payload is treated as failed — the
kind-specific error is set and items are untouched; a truthy payload
lacking the data list is not treated as failed — no error is set and
items are overwritten with the missing (undefined) data value. -/
theorem claim_C6_amended_missing_data (s : FetchState) (q : String) :
    providerFetchTrendingGifs s (AdapterResult.success Body.falsy) =
      [⟨true, s.error, s.gifs⟩,
       ⟨true, "Failed to fetch trending GIFs: No data when fetch trending GIFs", s.gifs⟩,
       ⟨false, "Failed to fetch trending GIFs: No data when fetch trending GIFs", s.gifs⟩]
    ∧ providerHandleSearch q s (AdapterResult.success Body.falsy) =
      [⟨s.loading, "Failed to search for a GIF: No data when search for a GIF", s.gifs⟩,
       ⟨false, "Failed to search for a GIF: No data when search for a GIF", s.gifs⟩]
    ∧ providerFetchTrendingGifs s (AdapterResult.success (Body.truthy none)) =
      [⟨true, s.error, s.gifs⟩, ⟨true, s.error, none⟩, ⟨false, s.error, none⟩]
    ∧ providerHandleSearch q s (AdapterResult.success (Body.truthy none)) =
      [⟨s.loading, s.error, none⟩, ⟨false, s.error, none⟩] := by
  cases s
  exact ⟨rfl, rfl, rfl, rfl⟩

/-- C8: clearError empties the error and leaves loading and gifs exactly
unchanged, in every state. -/
theorem claim_C8_clearError_frame (s : FetchState) :
    clearError s = ⟨s.loading, "", s.gifs⟩ := by
  cases s
  rfl

/-- C9: the context lookup throws the descriptive error when the context
value is undefined, and otherwise returns the shared state-and-actions
object itself. -/
theorem claim_C9_context_lookup :
    useGiphySearchContext none =
      Except.error "Context must be used with a GiphySearchContext"
    ∧ ∀ c : GiphyContextObject, useGiphySearchContext (some c) = Except.ok c :=
  ⟨rfl, fun _ => rfl⟩

/-- C10: withMinDelay is outcome-transparent: it settles with exactly the
outcome of the wrapped promise — the same resolution value, and a
rejection exactly when the wrapped promise rejects (the timer gate never
rejects and its value is dropped). -/
theorem claim_C10_withMinDelay_transparent {α : Type} (now d : Nat)
    (p : MPromise α) :
    (withMinDelay now p d).result = p.result
    ∧ (∀ e : String,
        (withMinDelay now p d).result = Except.error e ↔
          p.result = Except.error e) := by
  have h : (withMinDelay now p d).result = p.result := by
    cases hp : p.result with
    | ok a => simp [withMinDelay, promiseAll2, timerPromise, Except.map, hp]
    | error e => simp [withMinDelay, promiseAll2, timerPromise, Except.map, hp]
  exact ⟨h, fun e => by rw [h]⟩

/-- C2: counterexample. With the utils minDelay promise created at module
load time 0, a handleTrendingGifs call issued at time 2000 whose adapter
resolves at 2001 commits successfully with loading true only from 2000 to
2001 — an elapsed time of 1, far below the configured 1000ms floor,
because the shared gate already settled at time 1000. -/
theorem claim_C2_counterexample :
    utilsTrendingLoadingInterval 0 2000
        ⟨2001, Except.ok (Body.truthy (some []))⟩ = (2000, 2001)
    ∧ (utilsJoin 0 (⟨2001, Except.ok (Body.truthy (some []))⟩ : MPromise Body)).result =
        Except.ok (Body.truthy (some []))
    ∧ 2001 - 2000 < delayTime := by
  refine ⟨by decide, rfl, by decide⟩

/-- C2 amended: for a successfully resolving adapter promise, the
provider join withMinDelay settles exactly when both the adapter and its
per-call 1000ms gate have settled, hence no earlier than 1000ms after the
call; the utils join settles exactly when both the adapter and the shared
module-level minDelay promise have settled, which floors the elapsed time
only relative to module load, not to the call. -/
theorem claim_C2_join_and_floor {α : Type} (now moduleLoad : Nat)
    (p : MPromise α) (v : α) (h : p.result = Except.ok v) :
    (withMinDelay now p delayTime).settleTime =
      max p.settleTime (now + delayTime)
    ∧ now + delayTime ≤ (withMinDelay now p delayTime).settleTime
    ∧ (utilsJoin moduleLoad p).settleTime =
        max p.settleTime (moduleLoad + delayTime)
    ∧ moduleLoad + delayTime ≤ (utilsJoin moduleLoad p).settleTime := by
  have h1 : (withMinDelay now p delayTime).settleTime =
      max p.settleTime (now + delayTime) := by
    simp [withMinDelay, promiseAll2, timerPromise, h]
  have h2 : (utilsJoin moduleLoad p).settleTime =
      max p.settleTime (moduleLoad + delayTime) := by
    simp [utilsJoin, minDelay, promiseAll2, timerPromise, h]
  refine ⟨h1, ?_, h2, ?_⟩
  · rw [h1]
    exact le_max_right _ _
  · rw [h2]
    exact le_max_right _ _

theorem claim_C2_witness :
    (withMinDelay 0 (⟨0, Except.ok true⟩ : MPromise Bool) delayTime).settleTime =
      max (0 : Nat) (0 + delayTime)
    ∧ 0 + delayTime ≤
        (withMinDelay 0 (⟨0, Except.ok true⟩ : MPromise Bool) delayTime).settleTime
    ∧ (utilsJoin 0 (⟨0, Except.ok true⟩ : MPromise Bool)).settleTime =
        max (0 : Nat) (0 + delayTime)
    ∧ 0 + delayTime ≤ (utilsJoin 0 (⟨0, Except.ok true⟩ : MPromise Bool)).settleTime :=
  claim_C2_join_and_floor 0 0 ⟨0, Except.ok true⟩ true rfl

/-- C7: on the phrase list ["ab", "cd"], the visibleText values observed
over time (the states that dwell, with the synchronous index-advance
states collapsed) cycle as claimed; the step function has period 12 from
the mount state, so the cycle repeats indefinitely; a fresh animator
starts with empty text at index 0; and whenever the text empties in the
deleting phase, the index advances by one modulo the phrase count. -/
theorem claim_C7_placeholder_sequence :
    observedTexts ["ab", "cd"] 14 =
      ["", "a", "ab", "ab", "a", "", "c", "cd", "cd", "c", "", "a"]
    ∧ (useAnimatedPlaceHolderStep ["ab", "cd"])^[12] initPlaceholder =
        initPlaceholder
    ∧ initPlaceholder.placeholder = "" ∧ initPlaceholder.index = 0
    ∧ ∀ s : PlaceholderState, s.isDeleted = true → s.placeholder = "" →
        (useAnimatedPlaceHolderStep ["ab", "cd"] s).index = (s.index + 1) % 2 := by
  refine ⟨by decide, by decide, rfl, rfl, ?_⟩
  intro s hd hp
  cases s with
  | mk p d i =>
    simp only at hd hp
    subst hd
    subst hp
    simp [useAnimatedPlaceHolderStep]

theorem claim_C7_witness :
    (useAnimatedPlaceHolderStep ["ab", "cd"] ⟨"", true, 1⟩).index = (1 + 1) % 2 :=
  claim_C7_placeholder_sequence.2.2.2.2 ⟨"", true, 1⟩ rfl rfl

end GiphyModel
